import Mathlib

/-!
Shallow embedding of the JARVIS backend server (src/docs/jarvis-python-server.py)
and verification of its natural-language specification.

JSON values are modelled by an inductive `Json`; Python dicts are association
lists (insertion order preserved, first binding wins on lookup, as in the
literal dicts the server builds).  Each HTTP handler is a pure function from
its parsed request fields to the JSON response it returns; the server's only
mutable state, `manager.active_connections`, is threaded explicitly where a
handler touches it.  Python exceptions are modelled with `Except`/explicit
outcome types.
-/

/-- JSON values (the shapes the server builds and receives).  Python int and
float literals are kept apart (`num`/`fnum`); the only float in the server is
the canned confidence 0.95. -/
inductive Json where
  | null : Json
  | bool : Bool → Json
  | num : Int → Json
  | fnum : Rat → Json
  | str : String → Json
  | arr : List Json → Json
  | obj : List (String × Json) → Json
deriving Repr

/-- Key list of a JSON object (dict key order). -/
def Json.keys : Json → List String
  | .obj fs => fs.map Prod.fst
  | _ => []

/-- Dict lookup: first binding for the key, `none` when absent or not a dict. -/
def Json.lookup : Json → String → Option Json
  | .obj fs, k => fs.lookup k
  | _, _ => none

/-- Python `dict.get(k, default)`. -/
def Json.getD (j : Json) (k : String) (d : Json) : Json :=
  (j.lookup k).getD d

/-- Python exceptions the server can raise. -/
inductive PyExc where
  | valueError : PyExc
  | jsonDecodeError : PyExc
  | attributeError : PyExc
  | webSocketDisconnect : PyExc
deriving Repr, DecidableEq

/-- Single-quote character, for Python `repr` of strings. -/
def pyQuote : String := String.singleton (Char.ofNat 39)

mutual

/-- Python `repr(v)` for the payload values the actions module renders inside
its f-strings (strings are single-quoted, containers render their elements
with `repr`). -/
def Json.pyRepr : Json → String
  | .null => "None"
  | .bool true => "True"
  | .bool false => "False"
  | .num n => toString n
  | .fnum q => toString q
  | .str s => pyQuote ++ s ++ pyQuote
  | .arr xs => "[" ++ pyReprList xs ++ "]"
  | .obj fs => "\x7b" ++ pyReprFields fs ++ "\x7d"

/-- Comma-separated `repr` of list elements. -/
def pyReprList : List Json → String
  | [] => ""
  | [x] => x.pyRepr
  | x :: y :: xs => x.pyRepr ++ ", " ++ pyReprList (y :: xs)

/-- Comma-separated `repr` of dict entries. -/
def pyReprFields : List (String × Json) → String
  | [] => ""
  | [(k, v)] => pyQuote ++ k ++ pyQuote ++ ": " ++ v.pyRepr
  | (k, v) :: w :: xs =>
    pyQuote ++ k ++ pyQuote ++ ": " ++ v.pyRepr ++ ", " ++ pyReprFields (w :: xs)

end

/-- Python `str(v)` as used in the server's f-strings: like `repr` except a
top-level string renders without quotes. -/
def Json.pyStr : Json → String
  | .str s => s
  | v => v.pyRepr

/-- Rendering of `data.get(k)` inside an f-string: the value under `k`, or
`None` when absent. -/
def fmtGet (data : Json) (k : String) : String :=
  (data.getD k .null).pyStr

-- ============= VISION MODULE =============

/-- Handler `vision_endpoint` (src/docs/jarvis-python-server.py:71-121): dispatches on
`request.action`, returning canned data; unknown actions fall through to a
structured error.  The request body cannot raise, so the handler's
`except Exception` branch is dead and the function is total. -/
def vision_endpoint (action : String) (data : Option Json) : Json :=
  if action = "capture_screen" then
    .obj [("success", .bool true),
          ("data", .obj [("image_base64", .str "BASE64_DA_IMAGEM_AQUI"),
                         ("width", .num 1920),
                         ("height", .num 1080)])]
  else if action = "analyze_image" then
    .obj [("success", .bool true),
          ("data", .obj [("analysis", .str "Descrição da análise da imagem")])]
  else if action = "find_element" then
    .obj [("success", .bool true),
          ("data", .obj [("elements",
            .arr [.obj [("label", .str "botão"),
                        ("bbox", .obj [("x", .num 100), ("y", .num 200),
                                       ("width", .num 80), ("height", .num 30)]),
                        ("confidence", .fnum 0.95)]])])]
  else if action = "ocr" then
    .obj [("success", .bool true),
          ("data", .obj [("text", .str "Texto extraído da tela")])]
  else
    .obj [("success", .bool false),
          ("error", .str ("Ação desconhecida: " ++ action))]

-- ============= ACTIONS MODULE =============

/-- Handler `actions_endpoint` (src/docs/jarvis-python-server.py:125-161): dispatches
on `request.action`; each recognized action returns a canned success message,
anything else a structured unknown-action error.  Total: the body raises
nothing, so the `except Exception` branch is dead. -/
def actions_endpoint (action : String) (data : Json) : Json :=
  if action = "click" then
    .obj [("success", .bool true),
          ("message", .str ("Clique em (" ++ fmtGet data "x" ++ ", " ++ fmtGet data "y" ++ ")"))]
  else if action = "type" then
    .obj [("success", .bool true),
          ("message", .str ("Digitado: " ++ fmtGet data "text"))]
  else if action = "scroll" then
    .obj [("success", .bool true),
          ("message", .str ("Scroll " ++ fmtGet data "direction"))]
  else if action = "hotkey" then
    .obj [("success", .bool true),
          ("message", .str ("Atalho: " ++ fmtGet data "keys"))]
  else if action = "move_mouse" then
    .obj [("success", .bool true),
          ("message", .str ("Mouse movido para (" ++ fmtGet data "x" ++ ", " ++ fmtGet data "y" ++ ")"))]
  else if action = "drag" then
    .obj [("success", .bool true), ("message", .str "Drag executado")]
  else
    .obj [("success", .bool false),
          ("error", .str ("Ação desconhecida: " ++ action))]

-- ============= PLANNER MODULE =============

/-- Handler `planner_endpoint` (src/docs/jarvis-python-server.py:165-186): for every
goal it returns the same fixed three-step plan with a reasoning string naming
the goal; it never fails. -/
def planner_endpoint (goal : String) (context : Option Json) : Json :=
  .obj [("success", .bool true),
        ("plan", .obj
          [("steps", .arr
            [.obj [("id", .num 1), ("action", .str "capture_screen"),
                   ("description", .str "Capturar tela atual")],
             .obj [("id", .num 2), ("action", .str "find_element"),
                   ("description", .str "Encontrar elemento alvo")],
             .obj [("id", .num 3), ("action", .str "click"),
                   ("description", .str "Clicar no elemento")]]),
           ("reasoning", .str ("Plano gerado para: " ++ goal))])]

/-- The list of step objects inside a planner response. -/
def planSteps (r : Json) : List Json :=
  match r.lookup "plan" with
  | some p =>
    match p.lookup "steps" with
    | some (.arr xs) => xs
    | _ => []
  | _ => []

/-- The numeric `id` fields of a planner response's steps, in order. -/
def stepIds (r : Json) : List Int :=
  (planSteps r).filterMap fun s =>
    match s.lookup "id" with
    | some (.num n) => some n
    | _ => none

-- ============= AGENT MODULE =============

/-- Handler `agent_endpoint` (src/docs/jarvis-python-server.py:190-203): returns a
canned acknowledgement; it records no actions (`actions_taken` is the empty
list), produces no plan (`plan` is null), invokes no capability provider and
broadcasts nothing. -/
def agent_endpoint (command : String) (mode : String) (context : Option Json) : Json :=
  .obj [("success", .bool true),
        ("response", .str ("Processando comando: " ++ command)),
        ("actions_taken", .arr []),
        ("plan", .null)]

/-- Handler `agent_chat_endpoint` (src/docs/jarvis-python-server.py:205-218): reads the
conversation history into a dead local and returns a canned echo. -/
def agent_chat_endpoint (command : String) (context : Option Json) : Json :=
  let _history : Json :=
    match context with
    | some c => c.getD "conversation_history" (.arr [])
    | none => .arr []
  .obj [("success", .bool true),
        ("response", .str ("Olá! Você disse: " ++ command))]

-- ============= WEBSOCKET / CONNECTION MANAGER =============

/-- A live websocket connection, identified by a handle. -/
abbrev Conn := Nat

/-- Method `ConnectionManager.disconnect` (src/docs/jarvis-python-server.py:230-231):
Python `list.remove` deletes the first occurrence and raises `ValueError`
when the element is absent. -/
def disconnect (conns : List Conn) (ws : Conn) : Except PyExc (List Conn) :=
  if ws ∈ conns then .ok (conns.erase ws) else .error .valueError

/-- Outcome of `ConnectionManager.broadcast`: the connections the message was
delivered to, in order, and the connection whose send raised, if any. -/
structure BroadcastOutcome where
  delivered : List Conn
  raised : Option Conn
deriving Repr, DecidableEq

/-- Method `ConnectionManager.broadcast` (src/docs/jarvis-python-server.py:233-235):
`for connection in self.active_connections: await connection.send_json(message)`
— no try/except, so the first failing send propagates and ends the loop.
`sendOk c` tells whether `c.send_json` succeeds. -/
def broadcast (sendOk : Conn → Bool) : List Conn → BroadcastOutcome
  | [] => ⟨[], none⟩
  | c :: rest =>
    if sendOk c then
      let r := broadcast sendOk rest
      ⟨c :: r.delivered, r.raised⟩
    else ⟨[], some c⟩

/-- Call `broadcast` together with the registry state: the method iterates over
`active_connections` and never mutates it, so the registry after the call is
the registry before it, whatever happened during the sends. -/
def broadcastSt (sendOk : Conn → Bool) (reg : List Conn) :
    BroadcastOutcome × List Conn :=
  (broadcast sendOk reg, reg)

/-- Outcome of `json.loads` on one inbound websocket frame. -/
inductive ParseOutcome where
  | ok : Json → ParseOutcome
  | malformed : ParseOutcome
deriving Repr

/-- One inbound event on the websocket: a text frame (with its parse outcome),
or the peer disconnecting (`receive_text` raises `WebSocketDisconnect`). -/
inductive WsInbound where
  | text : ParseOutcome → WsInbound
  | disconnected : WsInbound
deriving Repr

/-- Result of one iteration of the `websocket_endpoint` loop:
a reply sent on the same connection, a clean close (disconnect caught,
connection unregistered), or an exception escaping the handler uncaught.
Each carries the registry state after the iteration. -/
inductive WsStepResult where
  | reply : Json → List Conn → WsStepResult
  | cleanClose : List Conn → WsStepResult
  | uncaught : PyExc → List Conn → WsStepResult
deriving Repr

/-- The outbound message `websocket_endpoint` builds for a parsed inbound
`message` (src/docs/jarvis-python-server.py:248-254). -/
def wsResponse (message : Json) (ts : String) : Json :=
  .obj [("type", .str "response"),
        ("module", message.getD "module" (.str "system")),
        ("payload", .obj [("status", .str "received"), ("original", message)]),
        ("timestamp", .str ts),
        ("id", message.getD "id" .null)]

/-- One iteration of `websocket_endpoint` (src/docs/jarvis-python-server.py:
239-259) for connection `ws` with registry `reg`.  The `try` block covers the
receive/parse/reply loop; its only `except` clause catches
`WebSocketDisconnect` (then calls `manager.disconnect`).  A `json.loads`
failure raises `JSONDecodeError`, which no clause catches; a non-dict parse
makes `message.get` raise `AttributeError`, likewise uncaught.  In both
uncaught cases `manager.disconnect` is never reached, so the registry is left
unchanged. -/
def websocketStep (reg : List Conn) (ws : Conn) (inbound : WsInbound)
    (ts : String) : WsStepResult :=
  match inbound with
  | .disconnected =>
    match disconnect reg ws with
    | .ok r => .cleanClose r
    | .error e => .uncaught e reg
  | .text .malformed => .uncaught .jsonDecodeError reg
  | .text (.ok m) =>
    match m with
    | .obj fs => .reply (wsResponse (.obj fs) ts) reg
    | _ => .uncaught .attributeError reg

/-- Whether a loop iteration ended with an exception escaping the boundary. -/
def WsStepResult.uncaughtFault : WsStepResult → Bool
  | .uncaught _ _ => true
  | _ => false

-- ============= HEALTH CHECK =============

/-- Handler `health_check` (src/docs/jarvis-python-server.py:263-269): a fixed
response; `ts` stands for `datetime.now().isoformat()`. -/
def health_check (ts : String) : Json :=
  .obj [("status", .str "healthy"),
        ("modules", .arr [.str "vision", .str "actions", .str "planner", .str "agent"]),
        ("timestamp", .str ts)]

/-- Handler `health_check` run against the server's mutable state (the connection
registry is the only mutable state in the process): the handler neither reads
nor writes it. -/
def health_check_handler (ts : String) (st : List Conn) : Json × List Conn :=
  (health_check ts, st)

-- ============= THEOREMS =============

/-- When every registered connection accepts the send, `broadcast` delivers to
all of them in order and nothing is raised. -/
theorem broadcast_all_ok (sendOk : Conn → Bool) :
    ∀ reg : List Conn, (∀ x ∈ reg, sendOk x = true) →
      broadcast sendOk reg = ⟨reg, none⟩
  | [], _ => rfl
  | a :: as, h => by
    have ha : sendOk a = true := h a (List.mem_cons_self a as)
    have ih := broadcast_all_ok sendOk as fun x hx => h x (List.mem_cons_of_mem a hx)
    simp [broadcast, ha, ih]

/-- When the first failing connection is `c`, `broadcast` delivers exactly to
the connections before `c` and the raised send ends the loop: the connections
after `c` are never attempted. -/
theorem broadcast_stops_at_failure (sendOk : Conn → Bool) (c : Conn) (post : List Conn)
    (hc : sendOk c = false) :
    ∀ pre : List Conn, (∀ x ∈ pre, sendOk x = true) →
      broadcast sendOk (pre ++ c :: post) = ⟨pre, some c⟩
  | [], _ => by simp [broadcast, hc]
  | a :: as, h => by
    have ha : sendOk a = true := h a (List.mem_cons_self a as)
    have ih := broadcast_stops_at_failure sendOk c post hc as
      fun x hx => h x (List.mem_cons_of_mem a hx)
    simp [broadcast, ha, ih]

/-- C1 counterexample: the actions module's unknown-action error message is
the Portuguese `Ação desconhecida: teleport`, not the literal
`UnknownAction: teleport` the claim states. -/
theorem actions_teleport_cex :
    actions_endpoint "teleport" (Json.obj []) =
      .obj [("success", .bool false), ("error", .str "Ação desconhecida: teleport")] ∧
    ("Ação desconhecida: teleport" : String) ≠ "UnknownAction: teleport" :=
  ⟨rfl, by decide⟩

/-- C1 (amended): for every action name outside the recognized vocabulary
(click, type, scroll, hotkey, move_mouse, drag) and every data payload,
`actions_endpoint` returns success false with an unknown-action error naming
the action — the message is `Ação desconhecida: ` followed by the action —
and, being a total function, lets no exception cross the boundary. -/
theorem actions_unknown_action (action : String) (data : Json)
    (h1 : action ≠ "click") (h2 : action ≠ "type") (h3 : action ≠ "scroll")
    (h4 : action ≠ "hotkey") (h5 : action ≠ "move_mouse") (h6 : action ≠ "drag") :
    actions_endpoint action data =
      .obj [("success", .bool false),
            ("error", .str ("Ação desconhecida: " ++ action))] := by
  simp [actions_endpoint, h1, h2, h3, h4, h5, h6]

/-- Witness for C1 at the concrete action `teleport`. -/
theorem actions_unknown_action_witness :
    actions_endpoint "teleport" (Json.obj [("x", Json.num 1)]) =
      .obj [("success", .bool false), ("error", .str "Ação desconhecida: teleport")] :=
  actions_unknown_action "teleport" (Json.obj [("x", Json.num 1)])
    (by decide) (by decide) (by decide) (by decide) (by decide) (by decide)

/-- C2 counterexample: a malformed inbound frame on the real-time channel is
not turned into a structured error — `json.loads` raises `JSONDecodeError`,
the only `except` clause catches `WebSocketDisconnect` alone, and the
exception escapes the boundary uncaught (the connection stays registered). -/
theorem ws_malformed_escapes :
    websocketStep [0] 0 (.text .malformed) "2025-01-01T00:00:00" =
      .uncaught .jsonDecodeError [0] ∧
    (websocketStep [0] 0 (.text .malformed) "2025-01-01T00:00:00").uncaughtFault = true :=
  ⟨rfl, rfl⟩

/-- C2 (amended): every HTTP boundary operation (vision, actions, planner,
agent, chat) is a total function returning a structured result carrying a
success field, so no failure propagates past those boundaries; the real-time
channel, however, catches only the disconnect — a malformed inbound message
escapes as an uncaught `JSONDecodeError`, whatever the registry, connection
and timestamp. -/
theorem boundary_failure_policy :
    (∀ a d, ((vision_endpoint a d).lookup "success").isSome = true) ∧
    (∀ a d, ((actions_endpoint a d).lookup "success").isSome = true) ∧
    (∀ g c, ((planner_endpoint g c).lookup "success").isSome = true) ∧
    (∀ cmd m c, ((agent_endpoint cmd m c).lookup "success").isSome = true) ∧
    (∀ cmd c, ((agent_chat_endpoint cmd c).lookup "success").isSome = true) ∧
    (∀ reg ws ts, websocketStep reg ws (.text .malformed) ts =
        .uncaught .jsonDecodeError reg) := by
  refine ⟨?_, ?_, ?_, ?_, ?_, fun reg ws ts => rfl⟩
  · intro a d
    unfold vision_endpoint
    repeat' split
    all_goals rfl
  · intro a d
    unfold actions_endpoint
    repeat' split
    all_goals rfl
  · intro g c
    rfl
  · intro cmd m c
    rfl
  · intro cmd c
    rfl

/-- C3 counterexample: with registry `[0, 1]` where the send to connection 0
raises, the loop aborts before attempting connection 1 (delivered list is
empty) and connection 0 is not removed — the registry is unchanged. -/
theorem broadcast_failure_cex :
    broadcastSt (fun c => decide (c ≠ 0)) [0, 1] =
      (⟨[], some 0⟩, [0, 1]) := by
  decide

/-- C3 (amended): `broadcast` attempts delivery in registration order; when
every send succeeds it delivers to exactly the registered connections, but a
failing send raises out of the loop, so connections after the failed one are
not attempted and the failed connection is not removed from the registry
(the membership set is left unchanged). -/
theorem broadcast_contract (sendOk : Conn → Bool) (reg pre post : List Conn) (c : Conn)
    (hok : ∀ x ∈ reg, sendOk x = true)
    (hc : sendOk c = false) (hpre : ∀ x ∈ pre, sendOk x = true) :
    broadcastSt sendOk reg = (⟨reg, none⟩, reg) ∧
    broadcastSt sendOk (pre ++ c :: post) = (⟨pre, some c⟩, pre ++ c :: post) := by
  unfold broadcastSt
  rw [broadcast_all_ok sendOk reg hok, broadcast_stops_at_failure sendOk c post hc pre hpre]
  exact ⟨rfl, rfl⟩

/-- Witness for C3: sends to connection 2 fail, the rest succeed. -/
theorem broadcast_contract_witness :
    broadcastSt (fun c => decide (c ≠ 2)) [7, 9] = (⟨[7, 9], none⟩, [7, 9]) ∧
    broadcastSt (fun c => decide (c ≠ 2)) [7, 2, 9] = (⟨[7], some 2⟩, [7, 2, 9]) :=
  broadcast_contract (fun c => decide (c ≠ 2)) [7, 9] [7] [9] 2
    (by decide) (by decide) (by decide)

/-- C4 counterexample: unregistering twice is not a no-op — after connection 0
is removed, a second `disconnect` hits Python `list.remove` on a list not
containing it and raises `ValueError`. -/
theorem disconnect_absent_cex :
    disconnect [0] 0 = .ok [] ∧ disconnect [] 0 = .error .valueError :=
  ⟨rfl, rfl⟩

/-- C4 (amended): `disconnect` removes the first occurrence of a present
connection, but it is not idempotent: once a connection registered exactly
once has been removed, unregistering it again raises `ValueError` instead of
being a no-op. -/
theorem disconnect_second_raises (reg reg2 : List Conn) (ws : Conn)
    (h1 : disconnect reg ws = .ok reg2) (hcount : reg.count ws = 1) :
    disconnect reg2 ws = .error .valueError := by
  have hmem : ws ∈ reg := by
    by_contra hn
    simp [disconnect, hn] at h1
  have h2 : reg2 = reg.erase ws := by
    simp [disconnect, hmem] at h1
    exact h1.symm
  have hz : reg2.count ws = 0 := by
    rw [h2, List.count_erase_self, hcount]
  have hnm : ws ∉ reg2 := by
    exact List.count_eq_zero.mp hz
  simp [disconnect, hnm]

/-- Witness for C4 at a registry holding connection 5 once. -/
theorem disconnect_second_raises_witness :
    disconnect ([] : List Conn) 5 = .error .valueError :=
  disconnect_second_raises [5] [] 5 rfl rfl

/-- C5 counterexample: for the scenario command with mode auto, the agent
handler records zero actions (not two step results) and produces no plan, so
no step events exist at all. -/
theorem agent_scenario_cex :
    (agent_endpoint "take a screenshot and click at (100,200)" "auto" none).lookup
      "actions_taken" = some (.arr []) ∧
    (agent_endpoint "take a screenshot and click at (100,200)" "auto" none).lookup
      "plan" = some .null :=
  ⟨rfl, rfl⟩

/-- C5 (amended): for every command, mode and context, `agent_endpoint`
returns the canned acknowledgement `Processando comando: ` followed by the
command, with an empty `actions_taken` list and a null plan: it executes no
steps, records no StepResult and emits no progress events (the handler never
invokes the plan generator, a capability provider or the registry). -/
theorem agent_returns_canned (command mode : String) (context : Option Json) :
    agent_endpoint command mode context =
      .obj [("success", .bool true),
            ("response", .str ("Processando comando: " ++ command)),
            ("actions_taken", .arr []),
            ("plan", .null)] :=
  rfl

/-- C6 counterexample: for the empty goal the planner does not fail — it
returns success true (with no error field), so no session ends `failed` and
no `PlanningError` is surfaced. -/
theorem planner_empty_goal_cex :
    (planner_endpoint "" none).lookup "success" = some (.bool true) ∧
    (planner_endpoint "" none).lookup "error" = none :=
  ⟨rfl, rfl⟩

/-- C6 (amended): for every goal — the empty goal included — and every
context, `planner_endpoint` succeeds with the fixed three-step plan and a
reasoning string naming the goal; it never raises a `PlanningError`, so no
session fails, no retry arises, and no step events are emitted on its
account. -/
theorem planner_never_fails (goal : String) (context : Option Json) :
    (planner_endpoint goal context).lookup "success" = some (.bool true) ∧
    (planner_endpoint goal context).lookup "error" = none ∧
    (planSteps (planner_endpoint goal context)).length = 3 :=
  ⟨rfl, rfl, rfl⟩

/-- C7: for every goal and context the planner returns success true together
with a plan whose step ids are `[1, 2, 3]` — pairwise distinct and sequential
(each id is its predecessor plus one) — and a reasoning string naming the
goal; the handler is a pure function that executes no step. -/
theorem planner_plan_contract (goal : String) (context : Option Json) :
    (planner_endpoint goal context).lookup "success" = some (.bool true) ∧
    stepIds (planner_endpoint goal context) = [1, 2, 3] ∧
    (stepIds (planner_endpoint goal context)).Nodup ∧
    stepIds (planner_endpoint goal context)
      = (List.range (stepIds (planner_endpoint goal context)).length).map
          (fun i => (i : Int) + 1) ∧
    ((planner_endpoint goal context).lookup "plan").bind (fun p => Json.lookup p "reasoning")
      = some (.str ("Plano gerado para: " ++ goal)) := by
  have h : stepIds (planner_endpoint goal context) = [1, 2, 3] := rfl
  exact ⟨rfl, h, by rw [h]; decide, by rw [h]; decide, rfl⟩

/-- C8: for every parsed inbound dict, registry, connection and timestamp, the
websocket loop replies on the same connection with a message whose keys are
exactly type, module, payload, timestamp, id — and when the inbound message
carries a correlation id, the outbound id echoes it. -/
theorem ws_response_shape (fs : List (String × Json)) (reg : List Conn) (ws : Conn)
    (ts : String) (v : Json)
    (h : (Json.obj fs).lookup "id" = some v) :
    websocketStep reg ws (.text (.ok (.obj fs))) ts
      = .reply (wsResponse (.obj fs) ts) reg ∧
    (wsResponse (.obj fs) ts).keys = ["type", "module", "payload", "timestamp", "id"] ∧
    (wsResponse (.obj fs) ts).lookup "id" = some v := by
  refine ⟨rfl, rfl, ?_⟩
  have h0 : (wsResponse (.obj fs) ts).lookup "id"
      = some ((Json.obj fs).getD "id" .null) := rfl
  rw [h0, Json.getD, h]
  rfl

/-- Witness for C8 at a concrete inbound message with correlation id. -/
theorem ws_response_shape_witness :
    websocketStep [3] 3
        (.text (.ok (.obj [("module", .str "agent"), ("id", .str "req-1")]))) "T"
      = .reply (wsResponse (.obj [("module", .str "agent"), ("id", .str "req-1")]) "T") [3] ∧
    (wsResponse (.obj [("module", .str "agent"), ("id", .str "req-1")]) "T").keys
      = ["type", "module", "payload", "timestamp", "id"] ∧
    (wsResponse (.obj [("module", .str "agent"), ("id", .str "req-1")]) "T").lookup "id"
      = some (.str "req-1") :=
  ws_response_shape [("module", .str "agent"), ("id", .str "req-1")] [3] 3 "T"
    (.str "req-1") rfl

/-- C9: for every timestamp and every two server states, the health check
response has exactly the keys status, modules, timestamp; its modules field is
the fixed list vision, actions, planner, agent; the handler leaves the state
untouched and its response does not depend on the state. -/
theorem health_check_contract (ts : String) (st st2 : List Conn) :
    (health_check_handler ts st).1.keys = ["status", "modules", "timestamp"] ∧
    (health_check_handler ts st).1.lookup "modules"
      = some (.arr [.str "vision", .str "actions", .str "planner", .str "agent"]) ∧
    (health_check_handler ts st).1.lookup "status" = some (.str "healthy") ∧
    (health_check_handler ts st).1.lookup "timestamp" = some (.str ts) ∧
    (health_check_handler ts st).2 = st ∧
    (health_check_handler ts st).1 = (health_check_handler ts st2).1 :=
  ⟨rfl, rfl, rfl, rfl, rfl, rfl⟩

/-- C10: the vision handler never reads the request's data field — for every
action the responses under any two data payloads coincide — and the
recognized actions return fixed canned payloads: capture_screen always
reports success with width 1920 and height 1080. -/
theorem vision_data_noninterference (action : String) (d1 d2 : Option Json) :
    vision_endpoint action d1 = vision_endpoint action d2 ∧
    ((vision_endpoint "capture_screen" d1).lookup "data").bind
        (fun p => Json.lookup p "width") = some (.num 1920) ∧
    ((vision_endpoint "capture_screen" d1).lookup "data").bind
        (fun p => Json.lookup p "height") = some (.num 1080) ∧
    (vision_endpoint "capture_screen" d1).lookup "success" = some (.bool true) :=
  ⟨rfl, rfl, rfl, rfl⟩
